import Mathlib

/-!
Verification of the worktree / CI-status core of the `claude-plugins`
workflow tools (`src/plugins/workflow/tools/git.py` and
`src/plugins/workflow/tools/github.py`), via a shallow embedding of the
relevant Python functions into Lean.

External effects (the `git` and `gh` subprocess invocations, JSON parsing)
are modelled as explicit parameters: a command runner is a function from an
argument list to a `(success, output)` pair, mirroring `run_git` / `run_gh`
in the source, and each JSON-parse point is an `Option`-valued oracle.
-/

namespace Workflow

/-- Embeds the `CICheck` dataclass of `github.py` (lines 29–36):
`name`, `status` (raw lowercase lifecycle token), nullable `conclusion`,
nullable `url`. -/
structure CICheck where
  name : String
  status : String
  conclusion : Option String
  url : Option String := none
deriving DecidableEq, Repr

/-- Python truthiness of the nullable `conclusion` string: `None` and the
empty string are falsy, any non-empty string is truthy.  This is the filter
`if c.conclusion` in the `all(...)` generator of `get_pr_with_checks`. -/
def truthyConclusion (c : CICheck) : Bool :=
  match c.conclusion with
  | none => false
  | some s => !s.isEmpty

/-- Embeds the CI-status reduction of `get_pr_with_checks`
(`github.py` lines 246–257); the identical block appears again in
`get_all_prs_with_status` (lines 271–284).  Evaluated in order:
empty → `unknown`; any `failure` conclusion → `failing`; any
`pending`/`in_progress` status → `pending`; all truthy conclusions in
`{success, skipped, neutral}` → `passing`; otherwise `unknown`. -/
def deriveCIStatus (checks : List CICheck) : String :=
  if checks.isEmpty then "unknown"
  else if checks.any (fun c => c.conclusion == some "failure") then "failing"
  else if checks.any (fun c => c.status == "pending" || c.status == "in_progress") then
    "pending"
  else if (checks.filter truthyConclusion).all
      (fun c => c.conclusion == some "success" || c.conclusion == some "skipped"
        || c.conclusion == some "neutral") then "passing"
  else "unknown"

/-- A command runner: maps an argument list to the `(success, output)` pair
of the underlying subprocess call, as `run_git` / `run_gh` return them. -/
def Runner : Type := List String → Bool × String

/-- Embeds `WORKTREE_BASE` of `git.py` (line 37). -/
def WORKTREE_BASE : String := ".worktrees"

/-- Embeds `PROTECTED_BRANCHES` of `git.py` (line 292). -/
def PROTECTED_BRANCHES : List String :=
  ["main", "master", "develop", "production", "staging"]

/-- Embeds Python's `str.lower()` as a character map (ASCII lowering, which
agrees with Python on the ASCII branch names the protected set compares
against). -/
def pyLower (s : String) : String :=
  String.mk (s.data.map Char.toLower)

/-- Embeds the branch sanitization `branch_name.replace("/", "-")` used by
both worktree-path computations (`git.py` lines 128 and 183); for the
single-character pattern this is a character map. -/
def sanitizeBranch (b : String) : String :=
  String.mk (b.data.map (fun c => if c = '/' then '-' else c))

/-- Embeds the worktree path computed by `create_worktree`
(`git.py` lines 127–128):
`repo_root.parent / WORKTREE_BASE / repo_root.name / branch.replace("/", "-")`.
A `pathlib` path is modelled as its list of components, so `repoParent`
stands for the components of `repo_root.parent`. -/
def worktreePathNew (repoParent : List String) (repoName branch : String) :
    List String :=
  repoParent ++ [WORKTREE_BASE, repoName, sanitizeBranch branch]

/-- Embeds the worktree path computed by
`create_worktree_for_existing_branch` (`git.py` lines 182–183):
the same base with a `ci-fix-` prefix on the sanitized branch. -/
def worktreePathCiFix (repoParent : List String) (repoName branch : String) :
    List String :=
  repoParent ++ [WORKTREE_BASE, repoName, "ci-fix-" ++ sanitizeBranch branch]

/-- Embeds `push_branch` (`git.py` lines 295–309).  Returns the boolean
result paired with the list of git commands the call issues, so that
"never invokes the push command" is observable: a protected branch returns
`false` having issued nothing; any other branch issues exactly the
`push -u origin <branch>` command and returns its success bit. -/
def push_branch (git : Runner) (branch_name : String) : Bool × List (List String) :=
  if PROTECTED_BRANCHES.contains (pyLower branch_name) then
    (false, [])
  else
    let r := git ["push", "-u", "origin", branch_name]
    (r.fst, [["push", "-u", "origin", branch_name]])

/-- Embeds `has_uncommitted_changes` (`git.py` lines 344–348): stage
everything, probe `status --porcelain`, and report whether the (stripped)
output is non-empty — `False` when the probe itself fails. -/
def has_uncommitted_changes (git : Runner) : Bool :=
  let _ := git ["add", "-A"]
  let r := git ["status", "--porcelain"]
  if r.fst then !r.snd.trim.isEmpty else false

/-- Embeds Python's `str.upper()` as a character map (ASCII uppercasing,
which agrees with Python on the raw check-state tokens compared against). -/
def pyUpper (s : String) : String :=
  String.mk (s.data.map Char.toUpper)

/-- A raw check entry as decoded from the `--json name,state,link` output
of `gh pr checks`; every field is optional, as `dict.get` is. -/
structure RawCheck where
  name : Option String
  state : Option String
  link : Option String
deriving DecidableEq, Repr

/-- Embeds the per-entry construction of `get_pr_checks`
(`github.py` lines 186–203): uppercase the raw state (defaulting missing
to the empty string), map `SUCCESS`/`FAILURE`/`ERROR`/`PENDING` to their
conclusions, pass any other non-empty state through lower-cased as both
status and conclusion, and use `unknown` for name/status defaults. -/
def mkCheckFromRaw (r : RawCheck) : CICheck :=
  let state := pyUpper (r.state.getD "")
  let conclusion :=
    if state == "SUCCESS" then some "success"
    else if state == "FAILURE" || state == "ERROR" then some "failure"
    else if state == "PENDING" then none
    else if state.isEmpty then none
    else some (pyLower state)
  { name := r.name.getD "unknown"
    status := if state.isEmpty then "unknown" else pyLower state
    conclusion := conclusion
    url := r.link }

/-- Embeds `get_pr_checks` (`github.py` lines 161–205) downstream of the
`gh pr checks` invocation: `fetch` is the `(success, output)` pair returned
by `run_gh`, and `parse` is the `json.loads` oracle (`none` models a
`JSONDecodeError`). -/
def get_pr_checks (fetch : Bool × String)
    (parse : String → Option (List RawCheck)) : List CICheck :=
  if !fetch.fst then []
  else
    match parse fetch.snd with
    | none => []
    | some checksData => checksData.map mkCheckFromRaw

/-- A job entry from `gh run view <id> --json jobs`; `databaseId` is a
JSON number, so Python truthiness makes both a missing id and `0` falsy. -/
structure RawJob where
  conclusion : Option String
  databaseId : Option Nat
  name : Option String
deriving DecidableEq, Repr

/-- A run entry from `gh run list --json databaseId,conclusion,name`. -/
structure RawRun where
  databaseId : Option Nat
  conclusion : Option String
  name : Option String
deriving DecidableEq, Repr

/-- Splits a character list on the non-empty separator `s0 :: sep`,
Python-`str.split` style; `fuel` bounds the recursion and is always
supplied as the input length, which every recursive call keeps sufficient
(each step strictly shortens the list). -/
def splitOnFuel (s0 : Char) (sep : List Char) : Nat → List Char → List (List Char)
  | _, [] => [[]]
  | 0, l => [l]
  | fuel + 1, c :: rest =>
    if (s0 :: sep).isPrefixOf (c :: rest) then
      [] :: splitOnFuel s0 sep fuel (List.drop sep.length rest)
    else
      match splitOnFuel s0 sep fuel rest with
      | [] => [[c]]
      | t :: ts => (c :: t) :: ts

/-- Embeds Python's `s.split(sep)` for a non-empty separator (the source
only ever splits on `"/actions/runs/"` and `"/"`).  On a literal the result
agrees with Python: the list of fragments between occurrences, so the
separator occurs in `s` exactly when the result has at least two parts. -/
def pySplit (s sep : String) : List String :=
  match sep.data with
  | [] => [s]
  | c :: cs => (splitOnFuel c cs s.data.length s.data).map String.mk

/-- Appends `["--repo", repo]` when a repository override is supplied, as
each `args.extend(["--repo", repo])` site in `github.py` does. -/
def withRepo (args : List String) : Option String → List String
  | none => args
  | some r => args ++ ["--repo", r]

/-- The failed-check filter of `get_failed_ci_logs` (`github.py` line 322):
raw state uppercased is `FAILURE` or `ERROR`. -/
def isFailedState (c : RawCheck) : Bool :=
  let s := pyUpper (c.state.getD "")
  s == "FAILURE" || s == "ERROR"

/-- Embeds stage 2 of `get_failed_ci_logs` (`github.py` lines 337–368) for
one failed check: when the detail link contains `/actions/runs/`, extract
the run id, fetch that run's jobs, and collect the failed-step log text of
each failed job with a truthy `databaseId`; yields the log lines this check
contributes.  A failed jobs fetch, an unparseable jobs payload
(`parseJobs` returning `none`), or a link without the run marker yields
nothing. -/
def stage2Logs (gh : Runner) (parseJobs : String → Option (List RawJob))
    (repo : Option String) (check : RawCheck) : List String :=
  let details_url := check.link.getD ""
  let check_name_str := check.name.getD "unknown"
  let parts := pySplit details_url "/actions/runs/"
  if parts.length ≥ 2 then
    let run_id := (pySplit (parts.getD 1 "") "/").headD ""
    let r := gh (withRepo ["run", "view", run_id, "--json", "jobs"] repo)
    if r.fst then
      match parseJobs r.snd with
      | none => []
      | some jobs =>
        (jobs.filter (fun j => j.conclusion == some "failure")).foldl
          (fun logs job =>
            match job.databaseId with
            | some job_id =>
              if job_id ≠ 0 then
                let lr := gh (withRepo
                  ["run", "view", "--job", toString job_id, "--log-failed"] repo)
                if lr.fst && !lr.snd.isEmpty then
                  logs ++ ["=== " ++ check_name_str ++ " - "
                    ++ job.name.getD "unknown job" ++ " ===", lr.snd, ""]
                else logs
              else logs
            | none => logs)
          []
    else []
  else []

/-- Embeds stage 3 of `get_failed_ci_logs` (`github.py` lines 370–395):
list recent runs on the `pr/<number>` branch, keep the first three that
concluded in failure, and collect whichever failed-run logs are
retrievable.  A failed listing or unparseable payload yields nothing. -/
def stage3Logs (gh : Runner) (parseRuns : String → Option (List RawRun))
    (repo : Option String) (pr_number : Nat) : List String :=
  let r := gh (withRepo
    ["run", "list", "--branch", "pr/" ++ toString pr_number,
      "--json", "databaseId,conclusion,name"] repo)
  if r.fst then
    match parseRuns r.snd with
    | none => []
    | some runs =>
      ((runs.filter (fun x => x.conclusion == some "failure")).take 3).foldl
        (fun logs rn =>
          match rn.databaseId with
          | some run_id =>
            if run_id ≠ 0 then
              let vr := gh (withRepo
                ["run", "view", toString run_id, "--log-failed"] repo)
              if vr.fst && !vr.snd.isEmpty then
                logs ++ ["=== " ++ rn.name.getD "unknown" ++ " ===", vr.snd, ""]
              else logs
            else logs
          | none => logs)
        []
  else []

/-- One iteration of the log-collection loop of `get_failed_ci_logs`
(`github.py` lines 333–395): append the check's stage-2 contribution, and
while the accumulated logs are still empty also attempt the stage-3
run-list fallback. -/
def ciLogsStep (gh : Runner) (parseJobs : String → Option (List RawJob))
    (parseRuns : String → Option (List RawRun)) (repo : Option String)
    (pr_number : Nat) (logs : List String) (check : RawCheck) : List String :=
  let logsAfter := logs ++ stage2Logs gh parseJobs repo check
  if logsAfter.isEmpty then
    logsAfter ++ stage3Logs gh parseRuns repo pr_number
  else logsAfter

/-- The log-collection loop of `get_failed_ci_logs` (`github.py` lines
332–395), iterating `ciLogsStep` over the failed checks from empty logs. -/
def ciLogsLoop (gh : Runner) (parseJobs : String → Option (List RawJob))
    (parseRuns : String → Option (List RawRun)) (repo : Option String)
    (pr_number : Nat) (failed_checks : List RawCheck) : List String :=
  failed_checks.foldl (ciLogsStep gh parseJobs parseRuns repo pr_number) []

/-- An ASCII apostrophe, for the f-string quoting in the check-not-found
message. -/
def sq : String := String.mk [Char.ofNat 39]

/-- Embeds `get_failed_ci_logs` (`github.py` lines 294–400).  `gh` is the
command runner; `parseChecks`, `parseJobs` and `parseRuns` are the
`json.loads` oracles at the three parse points (`none` modelling a decode
error, with `parseJobs` including the `.get("jobs", [])` projection).
Python truthiness of `check_name` makes an empty-string filter behave like
no filter. -/
def get_failed_ci_logs (gh : Runner)
    (parseChecks : String → Option (List RawCheck))
    (parseJobs : String → Option (List RawJob))
    (parseRuns : String → Option (List RawRun))
    (pr_number : Nat) (check_name : Option String)
    (repo : Option String) : String :=
  let r := gh (withRepo
    ["pr", "checks", toString pr_number, "--json", "name,state,link"] repo)
  if !r.fst then "Failed to get checks: " ++ r.snd
  else
    match parseChecks r.snd with
    | none => "Failed to parse checks data"
    | some checks =>
      let failed_checks := checks.filter isFailedState
      if failed_checks.isEmpty then "No failed checks found"
      else
        let useFilter := match check_name with
          | none => false
          | some cn => !cn.isEmpty
        if useFilter then
          let cn := check_name.getD ""
          let filtered := failed_checks.filter (fun c => c.name == some cn)
          if filtered.isEmpty then
            "Check " ++ sq ++ cn ++ sq ++ " not found or not failing"
          else
            let logs := ciLogsLoop gh parseJobs parseRuns repo pr_number filtered
            if logs.isEmpty then
              "Could not retrieve failure logs. Check the GitHub Actions UI directly."
            else String.intercalate "\n" logs
        else
          let logs := ciLogsLoop gh parseJobs parseRuns repo pr_number failed_checks
          if logs.isEmpty then
            "Could not retrieve failure logs. Check the GitHub Actions UI directly."
          else String.intercalate "\n" logs

end Workflow

namespace Workflow

/-- C7: For every check collection with zero entries, the derived CI status
is `unknown`. -/
theorem c7_empty_checks_unknown : deriveCIStatus [] = "unknown" := rfl

/-- C1: For every non-empty check collection containing at least one check
whose conclusion is `failure`, the derived CI status is `failing`,
regardless of what other entries are present. -/
theorem c1_failure_wins (checks : List CICheck) (c : CICheck)
    (hmem : c ∈ checks) (hfail : c.conclusion = some "failure") :
    deriveCIStatus checks = "failing" := by
  have hne : checks.isEmpty = false := by
    cases checks with
    | nil => cases hmem
    | cons a l => rfl
  have hany : checks.any (fun c => c.conclusion == some "failure") = true := by
    refine List.any_eq_true.mpr ⟨c, hmem, ?_⟩
    simp [hfail]
  simp [deriveCIStatus, hne, hany]

/-- Witness for C1 at a concrete collection containing one `failure`
conclusion alongside a `success` and a `pending` entry. -/
theorem c1_failure_wins_witness :
    deriveCIStatus
      [⟨"a", "success", some "success", none⟩,
       ⟨"b", "failure", some "failure", none⟩,
       ⟨"c", "pending", none, none⟩] = "failing" :=
  c1_failure_wins _ ⟨"b", "failure", some "failure", none⟩ (by decide) rfl

/-- Counterexample to C2: a single genuinely indeterminate check (status
`unknown`, null conclusion) derives to `passing` — the `all(...)` clause of
`get_pr_with_checks` is vacuously true when every conclusion is filtered
out as falsy, so such a collection silently reports as passing. -/
theorem c2_counterexample :
    deriveCIStatus [⟨"c", "unknown", none, none⟩] = "passing" := rfl

/-- C2 (amended): for every non-empty check collection in which every
check's conclusion is null and no check's status is `pending` or
`in_progress`, the derived CI status is `passing` (not "never passing" as
claimed): the all-conclusions clause holds vacuously. -/
theorem c2_all_null_passes (checks : List CICheck)
    (hne : checks ≠ [])
    (hnull : ∀ c ∈ checks, c.conclusion = none)
    (hnp : ∀ c ∈ checks, c.status ≠ "pending" ∧ c.status ≠ "in_progress") :
    deriveCIStatus checks = "passing" := by
  have hempty : checks.isEmpty = false := by
    cases checks with
    | nil => exact absurd rfl hne
    | cons a l => rfl
  have hnofail : checks.any (fun c => c.conclusion == some "failure") = false := by
    refine List.any_eq_false.mpr ?_
    intro c hc
    simp [hnull c hc]
  have hnopend :
      checks.any (fun c => c.status == "pending" || c.status == "in_progress") = false := by
    refine List.any_eq_false.mpr ?_
    intro c hc
    simp [(hnp c hc).1, (hnp c hc).2]
  have hfilter : checks.filter truthyConclusion = [] := by
    refine List.filter_eq_nil_iff.mpr ?_
    intro c hc
    simp [truthyConclusion, hnull c hc]
  simp [deriveCIStatus, hempty, hnofail, hnopend, hfilter]

/-- Witness for the amended C2 at a concrete one-element collection. -/
theorem c2_all_null_passes_witness :
    deriveCIStatus [⟨"lint", "unknown", none, none⟩] = "passing" :=
  c2_all_null_passes [⟨"lint", "unknown", none, none⟩]
    (by decide) (by decide) (by decide)

/-- C6: For every check collection with no `failure` conclusion and at
least one check whose status is `pending` or `in_progress`, the derived CI
status is `pending`. -/
theorem c6_pending_status (checks : List CICheck) (c : CICheck)
    (hmem : c ∈ checks)
    (hnofail : ∀ d ∈ checks, d.conclusion ≠ some "failure")
    (hpend : c.status = "pending" ∨ c.status = "in_progress") :
    deriveCIStatus checks = "pending" := by
  have hempty : checks.isEmpty = false := by
    cases checks with
    | nil => cases hmem
    | cons a l => rfl
  have hnofail' : checks.any (fun c => c.conclusion == some "failure") = false := by
    refine List.any_eq_false.mpr ?_
    intro d hd
    simp [hnofail d hd]
  have hany :
      checks.any (fun c => c.status == "pending" || c.status == "in_progress") = true := by
    refine List.any_eq_true.mpr ⟨c, hmem, ?_⟩
    rcases hpend with h | h <;> simp [h]
  simp [deriveCIStatus, hempty, hnofail', hany]

/-- Witness for C6: one `pending`-status check and zero `failure`
conclusions derives to `pending`. -/
theorem c6_pending_status_witness :
    deriveCIStatus
      [⟨"build", "success", some "success", none⟩,
       ⟨"test", "pending", none, none⟩] = "pending" :=
  c6_pending_status _ ⟨"test", "pending", none, none⟩
    (by decide) (by decide) (Or.inl rfl)

/-- C3: a branch whose lowercase form is protected makes `push_branch`
return failure having issued no git command at all; any other branch makes
it issue exactly the `push -u origin <branch>` command. -/
theorem c3_protected_push_guard (git : Runner) (branch_name : String) :
    (pyLower branch_name ∈ PROTECTED_BRANCHES →
      push_branch git branch_name = (false, [])) ∧
    (pyLower branch_name ∉ PROTECTED_BRANCHES →
      (push_branch git branch_name).snd = [["push", "-u", "origin", branch_name]]) := by
  constructor <;> intro h <;> simp [push_branch, h]

/-- Witness for C3: pushing to `Staging` is refused with no command issued,
while pushing to `feature/x` issues the push command. -/
theorem c3_protected_push_guard_witness :
    push_branch (fun _ => (true, "")) "Staging" = (false, []) ∧
    (push_branch (fun _ => (true, "")) "feature/x").snd
      = [["push", "-u", "origin", "feature/x"]] :=
  ⟨(c3_protected_push_guard (fun _ => (true, "")) "Staging").1 (by decide),
   (c3_protected_push_guard (fun _ => (true, "")) "feature/x").2 (by decide)⟩

/-- C4: worktree paths are pure functions of repository name and branch
name of the stated shape, and branch `feature/login` in repository `app`
yields the `.worktrees/app/feature-login` path (with the `ci-fix-` prefix
in the existing-branch flow). -/
theorem c4_worktree_path_shape (repoParent : List String) (repoName branch : String) :
    worktreePathNew repoParent repoName branch
      = repoParent ++ [".worktrees", repoName, sanitizeBranch branch] ∧
    worktreePathCiFix repoParent repoName branch
      = repoParent ++ [".worktrees", repoName, "ci-fix-" ++ sanitizeBranch branch] ∧
    worktreePathNew repoParent "app" "feature/login"
      = repoParent ++ [".worktrees", "app", "feature-login"] ∧
    worktreePathCiFix repoParent "app" "feature/login"
      = repoParent ++ [".worktrees", "app", "ci-fix-feature-login"] := by
  refine ⟨rfl, rfl, ?_, ?_⟩ <;>
    simp [worktreePathNew, worktreePathCiFix, WORKTREE_BASE] <;> decide

/-- Counterexample to C5: the two worktree namespaces are not disjoint —
the new-branch flow on branch `ci-fix-x` and the existing-branch flow on
branch `x` compute the same path. -/
theorem c5_counterexample :
    worktreePathNew ["p"] "app" "ci-fix-x" = worktreePathCiFix ["p"] "app" "x" := by
  decide

/-- C5 (amended): provided the sanitized new-flow branch name does not
itself start with `ci-fix-`, the path computed by the new-branch flow
never equals a path computed by the existing-branch (ci-fix) flow. -/
theorem c5_namespaces_disjoint (repoParent : List String) (repoName b1 b2 : String)
    (h : ¬ ("ci-fix-".data <+: (sanitizeBranch b1).data)) :
    worktreePathNew repoParent repoName b1 ≠ worktreePathCiFix repoParent repoName b2 := by
  intro heq
  have hlast : sanitizeBranch b1 = "ci-fix-" ++ sanitizeBranch b2 := by
    simpa [worktreePathNew, worktreePathCiFix] using heq
  exact h ⟨(sanitizeBranch b2).data, by rw [← String.data_append, ← hlast]⟩

/-- Witness for C5 (amended): `feature/login` versus `feature/login`. -/
theorem c5_namespaces_disjoint_witness :
    worktreePathNew ["p"] "app" "feature/login"
      ≠ worktreePathCiFix ["p"] "app" "feature/login" :=
  c5_namespaces_disjoint ["p"] "app" "feature/login" "feature/login" (by decide)

/-- C10: when the `status --porcelain` probe fails, the uncommitted-changes
query reports `false`, exactly as it does on a clean tree. -/
theorem c10_failed_status_reports_clean (git : Runner)
    (h : (git ["status", "--porcelain"]).fst = false) :
    has_uncommitted_changes git = false := by
  simp [has_uncommitted_changes, h]

/-- Witness for C10 with a runner whose every command fails with dirty
output text. -/
theorem c10_failed_status_reports_clean_witness :
    has_uncommitted_changes (fun _ => (false, " M file.py")) = false :=
  c10_failed_status_reports_clean (fun _ => (false, " M file.py")) rfl

/-- C8: a failed `gh pr checks` invocation, or output that does not parse
as JSON, makes `get_pr_checks` return the empty check list rather than an
error. -/
theorem c8_degraded_fetch_empty (fetch : Bool × String)
    (parse : String → Option (List RawCheck)) :
    (fetch.fst = false → get_pr_checks fetch parse = []) ∧
    (parse fetch.snd = none → get_pr_checks fetch parse = []) := by
  constructor <;> intro h <;>
    cases hf : fetch.fst <;> simp [get_pr_checks, h, hf]

/-- Witness for C8: a failed fetch, and a successful fetch whose output is
rejected by the parser, both yield the empty list. -/
theorem c8_degraded_fetch_empty_witness :
    get_pr_checks (false, "boom") (fun _ => none) = [] ∧
    get_pr_checks (true, "not json") (fun _ => none) = [] :=
  ⟨(c8_degraded_fetch_empty (false, "boom") (fun _ => none)).1 rfl,
   (c8_degraded_fetch_empty (true, "not json") (fun _ => none)).2 rfl⟩

/-- When every failed check contributes no stage-2 logs and the stage-3
run-list fallback contributes nothing either, the collection loop of
`get_failed_ci_logs` ends with empty logs. -/
theorem ciLogsLoop_eq_nil (gh : Runner)
    (parseJobs : String → Option (List RawJob))
    (parseRuns : String → Option (List RawRun)) (repo : Option String)
    (pr_number : Nat) (l : List RawCheck)
    (h2 : ∀ c ∈ l, stage2Logs gh parseJobs repo c = [])
    (h3 : stage3Logs gh parseRuns repo pr_number = []) :
    ciLogsLoop gh parseJobs parseRuns repo pr_number l = [] := by
  induction l with
  | nil => rfl
  | cons c cs ih =>
    have hc : stage2Logs gh parseJobs repo c = [] :=
      h2 c (List.mem_cons_self c cs)
    have hstep : ciLogsStep gh parseJobs parseRuns repo pr_number [] c = [] := by
      simp [ciLogsStep, hc, h3]
    have hrest : ∀ d ∈ cs, stage2Logs gh parseJobs repo d = [] :=
      fun d hd => h2 d (List.mem_cons_of_mem c hd)
    calc ciLogsLoop gh parseJobs parseRuns repo pr_number (c :: cs)
        = cs.foldl (ciLogsStep gh parseJobs parseRuns repo pr_number)
            (ciLogsStep gh parseJobs parseRuns repo pr_number [] c) := rfl
      _ = ciLogsLoop gh parseJobs parseRuns repo pr_number cs := by rw [hstep]; rfl
      _ = [] := ih hrest

/-- C9: for every invocation in which the checks fetch succeeds and
parses, at least one check is failing, any supplied truthy name filter
still leaves a failing check, every failed check's stage-2 lookup yields
no log text, and the stage-3 fallback yields none either, the resolver
returns the fixed apology string directing the operator to the GitHub
Actions UI (its result is a `String` by type, never an error). -/
theorem c9_apology_when_all_stages_empty (gh : Runner)
    (parseChecks : String → Option (List RawCheck))
    (parseJobs : String → Option (List RawJob))
    (parseRuns : String → Option (List RawRun))
    (pr_number : Nat) (check_name : Option String) (repo : Option String)
    (out : String) (checks : List RawCheck)
    (h1 : gh (withRepo
      ["pr", "checks", toString pr_number, "--json", "name,state,link"] repo)
      = (true, out))
    (h2 : parseChecks out = some checks)
    (h3 : (checks.filter isFailedState).isEmpty = false)
    (h4 : match check_name with
      | none => True
      | some cn => cn.isEmpty = false →
          ((checks.filter isFailedState).filter
            (fun c => c.name == some cn)).isEmpty = false)
    (h5 : ∀ c ∈ checks.filter isFailedState, stage2Logs gh parseJobs repo c = [])
    (h6 : stage3Logs gh parseRuns repo pr_number = []) :
    get_failed_ci_logs gh parseChecks parseJobs parseRuns pr_number check_name repo
      = "Could not retrieve failure logs. Check the GitHub Actions UI directly." := by
  have hloopAll := ciLogsLoop_eq_nil gh parseJobs parseRuns repo pr_number
    (checks.filter isFailedState) h5 h6
  cases check_name with
  | none => simp [get_failed_ci_logs, h1, h2, h3, hloopAll]
  | some cn =>
    cases hcn : cn.isEmpty with
    | true => simp [get_failed_ci_logs, h1, h2, h3, hcn, hloopAll]
    | false =>
      have hne := h4 hcn
      have hsub : ∀ c ∈ (checks.filter isFailedState).filter
          (fun c => c.name == some cn), stage2Logs gh parseJobs repo c = [] :=
        fun c hc => h5 c (List.mem_of_mem_filter hc)
      have hloopF := ciLogsLoop_eq_nil gh parseJobs parseRuns repo pr_number
        ((checks.filter isFailedState).filter (fun c => c.name == some cn)) hsub h6
      rw [List.filter_filter] at hne hloopF
      simp at hne
      simp [get_failed_ci_logs, h1, h2, h3, hcn, hne, hloopF]

/-- Witness for C9: a name filter matching the single failing check, whose
detail link has no `/actions/runs/` marker, with the run-list fallback
failing, yields the apology string. -/
theorem c9_apology_when_all_stages_empty_witness :
    get_failed_ci_logs
      (fun args =>
        if args = ["pr", "checks", "7", "--json", "name,state,link"]
        then (true, "J") else (false, ""))
      (fun s =>
        if s = "J" then some [⟨some "ci", some "FAILURE", some "https://example.com/x"⟩]
        else none)
      (fun _ => none) (fun _ => none) 7 (some "ci") none
      = "Could not retrieve failure logs. Check the GitHub Actions UI directly." :=
  c9_apology_when_all_stages_empty
    (fun args =>
      if args = ["pr", "checks", "7", "--json", "name,state,link"]
      then (true, "J") else (false, ""))
    (fun s =>
      if s = "J" then some [⟨some "ci", some "FAILURE", some "https://example.com/x"⟩]
      else none)
    (fun _ => none) (fun _ => none) 7 (some "ci") none "J"
    [⟨some "ci", some "FAILURE", some "https://example.com/x"⟩]
    (by decide) (by decide) (by decide) (by decide) (by decide) (by decide)

end Workflow
